import Mathlib

/-!
Verification of the clang-tidy-review posting pipeline
(`post/clang_tidy_review/clang_tidy_review/review.py`).

The source file under verification defines `post_review` and
`post_annotations`.  The helpers they call (`cull_comments`,
`decorate_comments`, `convert_comment_to_annotations`, the constant
`MAX_ANNOTATIONS`, and the `PullRequest` posting sink) live in the
package's library module, which is not part of the sources at hand;
those are modelled from the specification and marked as such below.

Side effects (network calls to the hosting service) are embedded as an
explicit list of posting actions returned alongside the function's
return value.  A Python exception (`IndexError` from `splitlines()[0]`
on an empty body) is embedded as an `Option.none` result.
-/

namespace ClangTidyReview

/-- A review comment, as handled by the pipeline: repo-relative `path`,
anchor `line`, optional `start_line` for ranged comments, and the
rendered `body` text.  These are exactly the fields reconciliation
matches on. -/
structure Comment where
  path : String
  line : Nat
  start_line : Option Nat
  body : String
deriving DecidableEq, Repr

/-- A pull-request review: a top-level summary `body` and the ordered
list of `comments` (the `PRReview` typed dict of the source). -/
structure PRReview where
  body : String
  comments : List Comment
deriving DecidableEq, Repr

/-- Modelled from the spec: the reconciler's duplicate test.  A comment
is already posted when its (path, line/start_line, body) tuple exactly
matches one of the existing comments supplied by the collaborator
(spec 4.4 step 1).  With `Comment` consisting of exactly those fields,
this is membership in the existing-comments list. -/
def is_already_posted (existing : List Comment) (c : Comment) : Bool :=
  decide (c ∈ existing)

/-- Modelled from the spec: the synthetic summary entry appended when
truncation drops comments, "noting how many were suppressed"
(spec 4.4 step 2 and the 8 scenario "5 comments suppressed"). -/
def summaryComment (suppressed : Nat) : Comment :=
  { path := ""
    line := 0
    start_line := none
    body := toString suppressed ++ " comments suppressed" }

/-- Modelled from the spec: `cull_comments` (imported by the source but
not among the sources at hand).  Spec 4.4: (1) drop every comment whose
(path, line/start_line, body) exactly matches an existing comment;
(2) if more than `max_comments` remain, keep only the first
`max_comments` in the stable order and append one synthetic summary
entry whose suppressed count is `total - limit`. -/
def cull_comments (existing : List Comment) (review : PRReview)
    (max_comments : Nat) : PRReview :=
  let survivors := review.comments.filter (fun c => ! is_already_posted existing c)
  if survivors.length ≤ max_comments then
    { review with comments := survivors }
  else
    { review with comments :=
        survivors.take max_comments
          ++ [summaryComment (survivors.length - max_comments)] }

/-- Modelled from the spec: `decorate_comments` (imported by the source
but not among the sources at hand).  The spec's data flow (2) hands
the candidate review directly to the reconciler and specifies no
body-rewriting step, so it is modelled as the identity. -/
def decorate_comments (review : PRReview) : PRReview :=
  review

/-- A posting action performed through the `PullRequest` sink by
`post_review`: either an LGTM issue comment or a full review post. -/
inductive PostAction where
  | lgtm (body : String)
  | review (r : PRReview)
deriving DecidableEq, Repr

/-- Embedding of `post_review` (review.py lines 195-232).  The
`existing` list stands for the previously posted comments the
`pull_request` collaborator supplies to `cull_comments`.  Returns the
list of posting actions performed, in order, together with the Python
return value. -/
def post_review (existing : List Comment) (review : Option PRReview)
    (max_comments : Nat) (lgtm_comment_body : String) (dry_run : Bool) :
    List PostAction × Nat :=
  match review with
  | none => ((if dry_run then [] else [PostAction.lgtm lgtm_comment_body]), 0)
  | some r =>
    if r.comments = [] then
      ((if dry_run then [] else [PostAction.lgtm lgtm_comment_body]), 0)
    else
      let total_comments := r.comments.length
      let decorated_review := decorate_comments r
      let trimmed_review := cull_comments existing decorated_review max_comments
      if trimmed_review.comments = [] then
        ([], total_comments)
      else if dry_run then
        ([], total_comments)
      else
        ([PostAction.review trimmed_review], total_comments)

/-- Modelled from the spec: the fixed cap on individual check-run
annotation entries, "a fixed maximum (10)" (spec 4.5 and 6). -/
def MAX_ANNOTATIONS : Nat := 10

/-- The characters of a string up to, not including, the first
newline. -/
def take_until_newline : List Char → List Char
  | [] => []
  | c :: cs => if c = Char.ofNat 10 then [] else c :: take_until_newline cs

/-- Model of the Python expression `s.splitlines()[0]`:
`none` stands for the `IndexError` raised when the body is empty
(Python's `"".splitlines()` is `[]`); otherwise the text up to the
first newline.  Only `"\n"` line boundaries are modelled. -/
def first_line_of (s : String) : Option String :=
  if s = "" then none else some (String.mk (take_until_newline s.data))

/-- `begins_with s pat` is true when `pat` is an initial segment of
`s`. -/
def begins_with : List Char → List Char → Bool
  | _, [] => true
  | [], _ :: _ => false
  | c :: cs, d :: ds => (c == d) && begins_with cs ds

/-- Substring occurrence test on character lists. -/
def has_sub : List Char → List Char → Bool
  | [], pat => pat.isEmpty
  | c :: cs, pat => begins_with (c :: cs) pat || has_sub cs pat

/-- `mentions pat s`: the text `s` contains `pat` as a substring. -/
def mentions (pat s : String) : Bool :=
  has_sub s.data pat.data

/-- One entry of the check-run annotations list. -/
structure AnnotEntry where
  path : String
  start_line : Nat
  end_line : Nat
  annotation_level : String
  message : String
  title : String
deriving DecidableEq, Repr

/-- Modelled from the spec: `convert_comment_to_annotations` (imported
by the source but not among the sources at hand).  Spec 4.5: path,
start_line, end_line, an annotation level derived from whether the body
mentions "error" rather than "warning", the first line of the body as
message, and a title. -/
def convert_comment_to_annotations (c : Comment) : AnnotEntry :=
  { path := c.path
    start_line := c.start_line.getD c.line
    end_line := c.line
    annotation_level :=
      if mentions "error" c.body then "failure" else "warning"
    message := (first_line_of c.body).getD ""
    title := "clang-tidy-review" }

/-- The `output` object of a check-run payload. -/
structure CheckRunOutput where
  title : String
  summary : String
  text : String
  annotations : List AnnotEntry
deriving DecidableEq, Repr

/-- A check-run payload handed to `pull_request.post_annotations`
(the `body` dict of review.py lines 240-272). -/
structure CheckRunBody where
  name : String
  head_sha : String
  status : String
  conclusion : String
  output : Option CheckRunOutput
deriving DecidableEq, Repr

/-- The initial `body` dict of `post_annotations`
(review.py lines 240-245): success conclusion and no `output` key. -/
def check_run_base (head_sha : String) : CheckRunBody :=
  { name := "clang-tidy-review"
    head_sha := head_sha
    status := "completed"
    conclusion := "success"
    output := none }

/-- The per-comment summary line built by the loop of review.py
lines 255-259:
`f"{path}:{start_line or line}: {first_line}"`, where taking the first
body line raises on an empty body (hence `Option`). -/
def summary_line (c : Comment) : Option String :=
  (first_line_of c.body).map (fun fl =>
    c.path ++ ":" ++ toString (c.start_line.getD c.line) ++ ": " ++ fl)

/-- The same summary line under the no-empty-body precondition,
with the first line of an empty body read as `""`. -/
def line_text (c : Comment) : String :=
  c.path ++ ":" ++ toString (c.start_line.getD c.line) ++ ": "
    ++ (first_line_of c.body).getD ""

/-- The `for comment in review["comments"]` loop of review.py
lines 254-259, building one summary line per comment in order;
`none` when any iteration raises on an empty body. -/
def build_summary_lines : List Comment → Option (List String)
  | [] => some []
  | c :: cs =>
    match summary_line c, build_summary_lines cs with
    | some l, some ls => some (l :: ls)
    | _, _ => none

/-- The mutated `body` dict posted at the end of `post_annotations`
(review.py lines 263-272): neutral conclusion and the `output` object
with title, warning-count summary, per-comment text block, and the
first `MAX_ANNOTATIONS` comments converted to annotation entries. -/
def check_run_final (head_sha : String) (r : PRReview)
    (lines : List String) : CheckRunBody :=
  { check_run_base head_sha with
    conclusion := "neutral"
    output := some
      { title := "clang-tidy-review"
        summary := "There were " ++ toString r.comments.length ++ " warnings"
        text := String.intercalate "\n" lines
        annotations :=
          (r.comments.take MAX_ANNOTATIONS).map convert_comment_to_annotations } }

/-- Embedding of `post_annotations` (review.py lines 235-275).
Returns `none` when the Python function raises (empty comment body in
the summary-line loop); otherwise the ordered list of payloads handed
to the posting sink together with the Python return value.  When the
comments list is empty the success payload is posted first and, the
branch not returning, the neutral payload is posted as well. -/
def post_annotations (head_sha : String) (review : Option PRReview) :
    Option (List CheckRunBody × Option Nat) :=
  match review with
  | none => some ([], none)
  | some r =>
    let first_posts := if r.comments = [] then [check_run_base head_sha] else []
    match build_summary_lines r.comments with
    | none => none
    | some lines =>
        some (first_posts ++ [check_run_final head_sha r lines],
          some r.comments.length)

/-! ## Helper lemmas -/

/-- The duplicate test is membership in the existing-comments list. -/
lemma is_already_posted_iff (existing : List Comment) (c : Comment) :
    is_already_posted existing c = true ↔ c ∈ existing := by
  simp [is_already_posted]

/-- When the limit is not exceeded, culling is exactly the
deduplication filter. -/
lemma cull_comments_eq_filter (existing : List Comment) (review : PRReview)
    (max_comments : Nat)
    (h : (review.comments.filter
        (fun c => ! is_already_posted existing c)).length ≤ max_comments) :
    (cull_comments existing review max_comments).comments
      = review.comments.filter (fun c => ! is_already_posted existing c) := by
  simp only [cull_comments]
  rw [if_pos h]

/-- Once the fresh survivors have been appended to the existing
comments, every comment of the input counts as already posted. -/
lemma filter_not_posted_append (existing : List Comment) (l : List Comment) :
    l.filter (fun c =>
        ! is_already_posted
            (existing ++ l.filter (fun c => ! is_already_posted existing c)) c)
      = [] := by
  apply List.filter_eq_nil_iff.mpr
  intro c hc
  simp only [is_already_posted, Bool.not_eq_true', decide_eq_true_eq,
    decide_eq_false_iff_not, not_not, List.mem_append]
  by_cases h : c ∈ existing
  · exact Or.inl h
  · exact Or.inr (List.mem_filter.mpr ⟨hc, by simp [is_already_posted, h]⟩)

/-! ## Claims about reconciliation (`cull_comments` as used by
`post_review`) -/

/-- C2 counterexample: the universally stated claim fails in the
truncation regime.  With no existing comments and `max_comments = 1`,
the comment at d.cpp:8 matches no existing comment, yet it is removed
from the to-post set (truncation keeps only the first survivor and the
summary entry), so culling is not the pure match-removal filter. -/
theorem cull_comments_removes_nonmatching_under_truncation :
    (cull_comments []
        (PRReview.mk ""
          [Comment.mk "c.cpp" 7 none "y1", Comment.mk "d.cpp" 8 none "y2"])
        1).comments
      ≠ (PRReview.mk ""
          [Comment.mk "c.cpp" 7 none "y1",
            Comment.mk "d.cpp" 8 none "y2"]).comments.filter
          (fun c => ! decide (c ∈ ([] : List Comment)))
    ∧ Comment.mk "d.cpp" 8 none "y2"
        ∉ (cull_comments []
            (PRReview.mk ""
              [Comment.mk "c.cpp" 7 none "y1", Comment.mk "d.cpp" 8 none "y2"])
            1).comments := by decide

/-- C2 (amended): for every freshly built review and every set of previously
posted existing comments, reconciliation removes from the to-post set
exactly those comments whose (path, line/start_line, body) exactly
matches an existing comment — membership in `existing`, since those are
all of a `Comment`'s fields — and keeps all others, provided the
surviving comments fit within the posting limit. -/
theorem cull_comments_removes_exactly_matches (existing : List Comment)
    (review : PRReview) (max_comments : Nat)
    (h : (review.comments.filter
        (fun c => ! is_already_posted existing c)).length ≤ max_comments) :
    (cull_comments existing review max_comments).comments
      = review.comments.filter (fun c => ! decide (c ∈ existing)) :=
  cull_comments_eq_filter existing review max_comments h

/-- C2 witness: a concrete review of two comments, the first already
posted; culling keeps exactly the second. -/
theorem cull_comments_removes_exactly_matches_witness :
    (cull_comments [Comment.mk "a.cpp" 3 none "w"]
        (PRReview.mk ""
          [Comment.mk "a.cpp" 3 none "w", Comment.mk "b.cpp" 5 none "x"])
        25).comments
      = [Comment.mk "b.cpp" 5 none "x"] :=
  (cull_comments_removes_exactly_matches [Comment.mk "a.cpp" 3 none "w"]
      (PRReview.mk ""
        [Comment.mk "a.cpp" 3 none "w", Comment.mk "b.cpp" 5 none "x"])
      25 (by decide)).trans (by decide)

/-- C3: with `max_comments = k` and `n > k` comments surviving
deduplication, the trimmed review contains exactly the first `k`
survivors in their stable order plus one synthetic summary entry
(`k + 1` entries in all), and the suppressed count stated in that
summary's body equals `n - k`. -/
theorem cull_comments_truncation_summary (existing : List Comment)
    (review : PRReview) (max_comments : Nat)
    (h : max_comments < (review.comments.filter
        (fun c => ! is_already_posted existing c)).length) :
    (cull_comments existing review max_comments).comments
      = (review.comments.filter
            (fun c => ! is_already_posted existing c)).take max_comments
        ++ [summaryComment
            ((review.comments.filter
                (fun c => ! is_already_posted existing c)).length - max_comments)]
    ∧ (cull_comments existing review max_comments).comments.length
        = max_comments + 1
    ∧ (summaryComment
        ((review.comments.filter
            (fun c => ! is_already_posted existing c)).length - max_comments)).body
      = toString
          ((review.comments.filter
              (fun c => ! is_already_posted existing c)).length - max_comments)
        ++ " comments suppressed" := by
  have hc : (cull_comments existing review max_comments).comments
      = (review.comments.filter
            (fun c => ! is_already_posted existing c)).take max_comments
        ++ [summaryComment
            ((review.comments.filter
                (fun c => ! is_already_posted existing c)).length - max_comments)] := by
    simp only [cull_comments]
    rw [if_neg (Nat.not_le.mpr h)]
  refine ⟨hc, ?_, rfl⟩
  rw [hc]
  simp [Nat.min_eq_left (Nat.le_of_lt h)]

/-- C3 witness: three fresh comments against a limit of two give the
first two plus a summary entry reporting one suppressed comment. -/
theorem cull_comments_truncation_summary_witness :
    (cull_comments []
        (PRReview.mk ""
          [Comment.mk "a.cpp" 1 none "w1", Comment.mk "b.cpp" 2 none "w2",
            Comment.mk "c.cpp" 3 none "w3"])
        2).comments
      = [Comment.mk "a.cpp" 1 none "w1", Comment.mk "b.cpp" 2 none "w2",
          summaryComment 1] :=
  ((cull_comments_truncation_summary []
      (PRReview.mk ""
        [Comment.mk "a.cpp" 1 none "w1", Comment.mk "b.cpp" 2 none "w2",
          Comment.mk "c.cpp" 3 none "w3"])
      2 (by decide)).1).trans (by decide)

/-- C4 counterexample: the claim fails when the first run truncated.
Two fresh comments with `max_comments = 1`: the first run posts one
comment plus the summary entry; rerunning against the updated
existing-comments set still leaves the second comment to post. -/
theorem cull_idempotence_fails_under_truncation :
    (cull_comments
        ([] ++ (cull_comments []
            (PRReview.mk ""
              [Comment.mk "a.cpp" 1 none "w1", Comment.mk "b.cpp" 2 none "w2"])
            1).comments)
        (PRReview.mk ""
          [Comment.mk "a.cpp" 1 none "w1", Comment.mk "b.cpp" 2 none "w2"])
        1).comments
      ≠ [] := by decide

/-- C4 amended: when the first run's deduplicated set fits within
`max_comments` (so no truncation occurred), running the reconciler
again with the same review and the existing comments extended by the
first run's posted comments yields an empty to-post set. -/
theorem cull_idempotent_without_truncation (existing : List Comment)
    (review : PRReview) (max_comments : Nat)
    (h : (review.comments.filter
        (fun c => ! is_already_posted existing c)).length ≤ max_comments) :
    (cull_comments
        (existing ++ (cull_comments existing review max_comments).comments)
        review max_comments).comments
      = [] := by
  rw [cull_comments_eq_filter existing review max_comments h]
  have h2 := filter_not_posted_append existing review.comments
  simp only [cull_comments, h2]
  simp

/-- C4 witness: one comment already posted, one fresh, a generous
limit; after the first run's post the second run has nothing left. -/
theorem cull_idempotent_without_truncation_witness :
    (cull_comments
        ([Comment.mk "a.cpp" 3 none "w"]
          ++ (cull_comments [Comment.mk "a.cpp" 3 none "w"]
              (PRReview.mk ""
                [Comment.mk "a.cpp" 3 none "w", Comment.mk "b.cpp" 5 none "x"])
              25).comments)
        (PRReview.mk ""
          [Comment.mk "a.cpp" 3 none "w", Comment.mk "b.cpp" 5 none "x"])
        25).comments
      = [] :=
  cull_idempotent_without_truncation [Comment.mk "a.cpp" 3 none "w"]
    (PRReview.mk ""
      [Comment.mk "a.cpp" 3 none "w", Comment.mk "b.cpp" 5 none "x"])
    25 (by decide)

/-- C5: the comments surviving reconciliation appear in the trimmed
review as a prefix of the deduplication filter's output — so in the
same relative order as in the input review and with their bodies
byte-for-byte unchanged (they are the very same entries) — followed at
most by the synthetic summary entry; truncation only drops trailing
entries of the stable order. -/
theorem cull_comments_preserves_order_and_bodies (existing : List Comment)
    (review : PRReview) (max_comments : Nat) :
    ∃ kept rest,
      (cull_comments existing review max_comments).comments = kept ++ rest
      ∧ (rest = []
          ∨ rest = [summaryComment
              ((review.comments.filter
                  (fun c => ! is_already_posted existing c)).length - max_comments)])
      ∧ List.IsPrefix kept
          (review.comments.filter (fun c => ! is_already_posted existing c))
      ∧ List.Sublist kept review.comments := by
  by_cases h : (review.comments.filter
      (fun c => ! is_already_posted existing c)).length ≤ max_comments
  · refine ⟨review.comments.filter (fun c => ! is_already_posted existing c), [],
      ?_, Or.inl rfl, List.prefix_refl _, List.filter_sublist _⟩
    rw [List.append_nil]
    exact cull_comments_eq_filter existing review max_comments h
  · refine ⟨(review.comments.filter
        (fun c => ! is_already_posted existing c)).take max_comments,
      [summaryComment
        ((review.comments.filter
            (fun c => ! is_already_posted existing c)).length - max_comments)],
      ?_, Or.inr rfl, List.take_prefix _ _,
      (List.take_prefix _ _).sublist.trans (List.filter_sublist _)⟩
    simp only [cull_comments]
    rw [if_neg h]

/-! ## Claims about `post_review` -/

/-- C1: `post_review` distinguishes the "clean" outcome from the
"nothing new" outcome.  A `None` review or one with an empty comments
list posts the LGTM comment (unless dry_run) and returns 0; a
non-empty review whose reconciled comment set is empty posts neither
the LGTM comment nor a review and returns the original comment
count. -/
theorem post_review_clean_vs_nothing_new (existing : List Comment)
    (review : Option PRReview) (max_comments : Nat)
    (lgtm_comment_body : String) (dry_run : Bool) :
    ((review = none ∨ ∃ r, review = some r ∧ r.comments = []) →
      post_review existing review max_comments lgtm_comment_body dry_run
        = ((if dry_run then [] else [PostAction.lgtm lgtm_comment_body]), 0))
    ∧ (∀ r, review = some r → r.comments ≠ [] →
        (cull_comments existing (decorate_comments r) max_comments).comments
          = [] →
        post_review existing review max_comments lgtm_comment_body dry_run
          = ([], r.comments.length)) := by
  constructor
  · rintro (rfl | ⟨r, rfl, hc⟩)
    · rfl
    · simp [post_review, hc]
  · rintro r rfl hne hcull
    simp [post_review, hne, hcull]

/-- C1 witness: a `None` review fires the LGTM path and returns 0; a
one-comment review whose single comment was already posted posts
nothing and returns 1. -/
theorem post_review_clean_vs_nothing_new_witness :
    post_review [] none 25 "LGTM" false = ([PostAction.lgtm "LGTM"], 0)
    ∧ post_review [Comment.mk "a.cpp" 3 none "w"]
        (some (PRReview.mk "" [Comment.mk "a.cpp" 3 none "w"])) 25 "LGTM" false
      = ([], 1) :=
  ⟨(post_review_clean_vs_nothing_new [] none 25 "LGTM" false).1 (Or.inl rfl),
    (post_review_clean_vs_nothing_new [Comment.mk "a.cpp" 3 none "w"]
        (some (PRReview.mk "" [Comment.mk "a.cpp" 3 none "w"]))
        25 "LGTM" false).2
      (PRReview.mk "" [Comment.mk "a.cpp" 3 none "w"]) rfl (by decide)
      (by decide)⟩

/-- C10: in a dry run `post_review` performs no posting action at all,
and its return value is the same as in the corresponding non-dry
run. -/
theorem post_review_dry_run_frame (existing : List Comment)
    (review : Option PRReview) (max_comments : Nat)
    (lgtm_comment_body : String) :
    (post_review existing review max_comments lgtm_comment_body true).1 = []
    ∧ (post_review existing review max_comments lgtm_comment_body true).2
      = (post_review existing review max_comments lgtm_comment_body false).2 := by
  cases review with
  | none => simp [post_review]
  | some r =>
    by_cases hc : r.comments = []
    · simp [post_review, hc]
    · by_cases ht : (cull_comments existing (decorate_comments r)
          max_comments).comments = []
      · simp [post_review, hc, ht]
      · simp [post_review, hc, ht]

/-! ## Claims about `post_annotations` -/

/-- Under the no-empty-body precondition the summary-line loop succeeds
and produces exactly one line per comment, in order. -/
lemma build_summary_lines_eq_map (l : List Comment)
    (h : ∀ c ∈ l, c.body ≠ "") :
    build_summary_lines l = some (l.map line_text) := by
  induction l with
  | nil => rfl
  | cons c cs ih =>
    have hc : c.body ≠ "" := h c (List.mem_cons_self c cs)
    have hs : summary_line c = some (line_text c) := by
      simp [summary_line, line_text, first_line_of, hc]
    have ht := ih (fun x hx => h x (List.mem_cons_of_mem c hx))
    simp [build_summary_lines, hs, ht]

/-- C6: for a review all of whose comment bodies are non-empty,
`post_annotations` posts a final payload whose annotations list is the
conversion of the first `MAX_ANNOTATIONS` comments in review order —
`min n 10` individual entries — while its text block carries one
summary line per comment, all `n` of them, and its summary states the
full count `n`. -/
theorem post_annotations_cap_and_summary_text (head_sha : String)
    (r : PRReview) (h : ∀ c ∈ r.comments, c.body ≠ "") :
    post_annotations head_sha (some r)
      = some ((if r.comments = [] then [check_run_base head_sha] else [])
            ++ [check_run_final head_sha r (r.comments.map line_text)],
          some r.comments.length)
    ∧ (check_run_final head_sha r (r.comments.map line_text)).output
      = some
        { title := "clang-tidy-review"
          summary := "There were " ++ toString r.comments.length ++ " warnings"
          text := String.intercalate "\n" (r.comments.map line_text)
          annotations :=
            (r.comments.take MAX_ANNOTATIONS).map convert_comment_to_annotations }
    ∧ ((r.comments.take MAX_ANNOTATIONS).map convert_comment_to_annotations).length
      = min r.comments.length MAX_ANNOTATIONS
    ∧ (r.comments.map line_text).length = r.comments.length := by
  refine ⟨?_, rfl, ?_, List.length_map _ _⟩
  · simp [post_annotations, build_summary_lines_eq_map r.comments h]
  · simp [List.length_take, Nat.min_comm]

/-- C6 witness: a single one-line comment produces one summary line,
one annotation entry and a count of 1. -/
theorem post_annotations_cap_and_summary_text_witness :
    post_annotations "sha0"
        (some (PRReview.mk "" [Comment.mk "a.cpp" 3 none "w"]))
      = some ([check_run_final "sha0"
            (PRReview.mk "" [Comment.mk "a.cpp" 3 none "w"]) ["a.cpp:3: w"]],
          some 1) :=
  ((post_annotations_cap_and_summary_text "sha0"
      (PRReview.mk "" [Comment.mk "a.cpp" 3 none "w"]) (by decide)).1).trans
    (by decide)

/-- C7: every payload handed to the posting sink carries the fixed
name, the PR head SHA, completed status and a success-or-neutral
conclusion; when the review has comments, exactly one payload is
posted, it is neutral, and it carries an output object with the title
and at most `MAX_ANNOTATIONS` annotation entries. -/
theorem post_annotations_payload_shape (head_sha : String)
    (review : Option PRReview) (posts : List CheckRunBody) (ret : Option Nat)
    (h : post_annotations head_sha review = some (posts, ret)) :
    (∀ b ∈ posts, b.name = "clang-tidy-review" ∧ b.head_sha = head_sha
      ∧ b.status = "completed"
      ∧ (b.conclusion = "success" ∨ b.conclusion = "neutral"))
    ∧ (∀ r, review = some r → r.comments ≠ [] →
        posts.length = 1
        ∧ ∀ b ∈ posts, b.conclusion = "neutral" ∧ b.output ≠ none
            ∧ ∀ out, b.output = some out →
                out.title = "clang-tidy-review"
                ∧ out.annotations.length ≤ MAX_ANNOTATIONS) := by
  cases review with
  | none =>
    simp only [post_annotations, Option.some.injEq, Prod.mk.injEq] at h
    obtain ⟨rfl, rfl⟩ := h
    refine ⟨?_, ?_⟩
    · intro b hb
      exact absurd hb (List.not_mem_nil b)
    · intro r hr
      cases hr
  | some r =>
    cases hb : build_summary_lines r.comments with
    | none => simp [post_annotations, hb] at h
    | some lines =>
      simp only [post_annotations, hb, Option.some.injEq, Prod.mk.injEq] at h
      obtain ⟨rfl, rfl⟩ := h
      constructor
      · intro b hbm
        by_cases hc : r.comments = []
        · simp only [hc, if_true, List.mem_append, List.mem_singleton,
            List.mem_cons, List.not_mem_nil, or_false] at hbm
          rcases hbm with rfl | rfl
          · exact ⟨rfl, rfl, rfl, Or.inl rfl⟩
          · exact ⟨rfl, rfl, rfl, Or.inr rfl⟩
        · rw [if_neg hc, List.nil_append, List.mem_singleton] at hbm
          subst hbm
          exact ⟨rfl, rfl, rfl, Or.inr rfl⟩
      · intro r' hr' hne
        injection hr' with hv
        subst hv
        rw [if_neg hne, List.nil_append]
        refine ⟨rfl, ?_⟩
        intro b hbm
        rw [List.mem_singleton] at hbm
        subst hbm
        refine ⟨rfl, by simp [check_run_final], ?_⟩
        intro out hout
        simp only [check_run_final, Option.some.injEq] at hout
        subst hout
        refine ⟨rfl, ?_⟩
        simp only [List.length_map, List.length_take]
        exact Nat.min_le_left _ _

/-- C7 witness: a one-comment review yields exactly one neutral payload
with the fixed name, the supplied SHA and one annotation entry. -/
theorem post_annotations_payload_shape_witness :
    (∀ b ∈ [check_run_final "sha0"
        (PRReview.mk "" [Comment.mk "a.cpp" 3 none "w"]) ["a.cpp:3: w"]],
      b.name = "clang-tidy-review" ∧ b.head_sha = "sha0"
      ∧ b.status = "completed"
      ∧ (b.conclusion = "success" ∨ b.conclusion = "neutral"))
    ∧ ([check_run_final "sha0"
          (PRReview.mk "" [Comment.mk "a.cpp" 3 none "w"])
          ["a.cpp:3: w"]].length = 1
        ∧ ∀ b ∈ [check_run_final "sha0"
            (PRReview.mk "" [Comment.mk "a.cpp" 3 none "w"]) ["a.cpp:3: w"]],
          b.conclusion = "neutral" ∧ b.output ≠ none
            ∧ ∀ out, b.output = some out →
                out.title = "clang-tidy-review"
                ∧ out.annotations.length ≤ MAX_ANNOTATIONS) :=
  have h := post_annotations_payload_shape "sha0"
    (some (PRReview.mk "" [Comment.mk "a.cpp" 3 none "w"]))
    [check_run_final "sha0"
      (PRReview.mk "" [Comment.mk "a.cpp" 3 none "w"]) ["a.cpp:3: w"]]
    (some 1) (by decide)
  ⟨h.1, h.2 (PRReview.mk "" [Comment.mk "a.cpp" 3 none "w"]) rfl (by decide)⟩

/-- C8: on a review with an empty comments list, `post_annotations`
posts twice in one invocation — first the success payload with no
output field, then, the empty-list branch not returning, the neutral
payload with the "There were 0 warnings" summary and an empty
annotations list. -/
theorem post_annotations_double_post_on_empty_comments (head_sha : String)
    (r : PRReview) (h : r.comments = []) :
    post_annotations head_sha (some r)
      = some ([check_run_base head_sha, check_run_final head_sha r []], some 0)
    ∧ (check_run_base head_sha).conclusion = "success"
    ∧ (check_run_base head_sha).output = none
    ∧ (check_run_final head_sha r []).conclusion = "neutral"
    ∧ (check_run_final head_sha r []).output
      = some
        { title := "clang-tidy-review"
          summary := "There were 0 warnings"
          text := ""
          annotations := [] } := by
  obtain ⟨rb, cs⟩ := r
  simp only at h
  subst h
  refine ⟨rfl, rfl, rfl, rfl, ?_⟩
  simp only [check_run_final, check_run_base, List.length_nil]
  decide

/-- C8 witness: the empty review posts the success payload and then the
neutral zero-warning payload. -/
theorem post_annotations_double_post_on_empty_comments_witness :
    post_annotations "sha0" (some (PRReview.mk "ok" []))
      = some ([check_run_base "sha0",
            check_run_final "sha0" (PRReview.mk "ok" []) []],
          some 0) :=
  (post_annotations_double_post_on_empty_comments "sha0"
      (PRReview.mk "ok" []) rfl).1

/-- C9: `post_annotations` is partial in the comment body: it raises on
a review containing a comment with an empty body (embedded as `none`),
and it is total whenever every comment's body has at least one line. -/
theorem post_annotations_partial_on_empty_body (head_sha : String)
    (r : PRReview) (h : ∀ c ∈ r.comments, c.body ≠ "") :
    post_annotations head_sha (some r) ≠ none
    ∧ post_annotations head_sha
        (some (PRReview.mk "" [Comment.mk "a.cpp" 1 none ""])) = none := by
  constructor
  · simp [post_annotations, build_summary_lines_eq_map r.comments h]
  · rfl

/-- C9 witness: a review whose single body is non-empty succeeds, while
the empty-body review crashes. -/
theorem post_annotations_partial_on_empty_body_witness :
    post_annotations "sha0"
        (some (PRReview.mk "" [Comment.mk "a.cpp" 3 none "w"])) ≠ none
    ∧ post_annotations "sha0"
        (some (PRReview.mk "" [Comment.mk "a.cpp" 1 none ""])) = none :=
  post_annotations_partial_on_empty_body "sha0"
    (PRReview.mk "" [Comment.mk "a.cpp" 3 none "w"]) (by decide)

end ClangTidyReview
